import Mathlib

/-!
Verification development for the booking-saga system (orders / events / account
services).  Each service's relevant handlers are shallowly embedded as pure Lean
functions over explicit state (the SQL tables become lists of rows, HTTP
responses become status codes, asynchronous callbacks become returned payloads).
-/

namespace Saga

namespace Account

/-- Status column of the account table: 0 = pending, 1 = committed
(getBalanceTpl filters on status=1, updateBalanceTpl on status=0). -/
inductive EntryStatus where
  | pending
  | committed
deriving DecidableEq

/-- Row of the account table: (user_id, request_id, delta, status). -/
structure LedgerEntry where
  userId : Int
  requestId : String
  delta : Int
  status : EntryStatus
deriving DecidableEq

/-- Predicate for the WHERE clause of updateBalanceTpl:
user_id=$1 AND request_id=$2 AND status=0. -/
def matchesPending (uid : Int) (rid : String) (e : LedgerEntry) : Bool :=
  decide (e.userId = uid ∧ e.requestId = rid ∧ e.status = EntryStatus.pending)

/-- Predicate for an entry of the (uid, rid) pair regardless of status. -/
def matchesPair (uid : Int) (rid : String) (e : LedgerEntry) : Bool :=
  decide (e.userId = uid ∧ e.requestId = rid)

/-- Predicate for a committed entry of the (uid, rid) pair carrying delta d. -/
def matchesCommitted (uid : Int) (rid : String) (d : Int) (e : LedgerEntry) : Bool :=
  decide (e.userId = uid ∧ e.requestId = rid ∧ e.status = EntryStatus.committed ∧ e.delta = d)

/-- Predicate for a pending entry of the (uid, rid) pair with delta 0 (the row
shape inserted by prepareOperationTpl). -/
def matchesPendingZero (uid : Int) (rid : String) (e : LedgerEntry) : Bool :=
  decide (e.userId = uid ∧ e.requestId = rid ∧ e.delta = 0 ∧ e.status = EntryStatus.pending)

/-- Effect of updateBalanceTpl (`UPDATE account SET delta=$3, status=1 WHERE
user_id=$1 AND request_id=$2 AND status=0`) on a single row. -/
def applyEntry (uid : Int) (rid : String) (d : Int) (e : LedgerEntry) : LedgerEntry :=
  if matchesPending uid rid e then
    { e with delta := d, status := EntryStatus.committed }
  else e

/-- Embedding of updatebalance (account/app/main.go): executes updateBalanceTpl
and checks RowsAffected; the Bool is true for success and false for the
"balance did not change" error (no matching pending row). -/
def updatebalance (db : List LedgerEntry) (uid : Int) (rid : String) (d : Int) :
    List LedgerEntry × Bool :=
  (db.map (applyEntry uid rid d), db.countP (matchesPending uid rid) != 0)

/-- Embedding of getbalance (account/app/main.go): getBalanceTpl is
`SELECT COALESCE(SUM(delta),0) FROM account WHERE user_id=$1 AND status=1`. -/
def getbalance (db : List LedgerEntry) (uid : Int) : Int :=
  (((db.filter (fun e =>
      decide (e.userId = uid ∧ e.status = EntryStatus.committed)))).map
      (fun e => e.delta)).sum

/-- Modelled from the spec: the account table's SQL schema is not under src
(only the statements that query it are).  The spec's data model declares
"Identity: (user id, idempotency token) pair, unique", so prepareOperationTpl
(`INSERT INTO account (user_id, request_id, delta, status) VALUES ($1, $2, 0, 0)`,
written without an ON CONFLICT clause) succeeds when no row for the pair exists
and is rejected with a uniqueness violation (Bool false) when one does. -/
def insertPrepared (db : List LedgerEntry) (uid : Int) (rid : String) :
    List LedgerEntry × Bool :=
  if db.any (matchesPair uid rid) then (db, false)
  else (db ++ [⟨uid, rid, 0, EntryStatus.pending⟩], true)

/-- Embedding of the newReq handler (account/app/main.go): executes
prepareOperationStmt and answers HTTP 500 when the insert errs, HTTP 200
otherwise. -/
def newReq (db : List LedgerEntry) (uid : Int) (rid : String) :
    List LedgerEntry × Int :=
  let r := insertPrepared db uid rid
  if r.2 then (r.1, 200) else (r.1, 500)

/-- Body of a withdrawal request as decoded by the withdrawal handler
(withdrawalRequestModel: book_id, withdrawal_sum). -/
structure WithdrawReq where
  bookId : Int
  withDrawSum : Int
deriving DecidableEq

/-- Payload of the callback the account service posts back to the book service
(withDrawalResponseModel: book_id, user_id, price, status). -/
structure WCallback where
  bookId : Int
  userId : Int
  price : Int
  status : Bool
deriving DecidableEq

/-- Embedding of the withdrawal handler (account/app/main.go).  The flag
balanceReadFails models getbalanceStmt's Scan returning an error: the handler
logs and writes HTTP 500 but does NOT return, so it continues with the zero
value 0 left in the balance variable.  Result: new table, HTTP status of the
first WriteHeader, and the callback payload sent to the book service. -/
def withdrawal (db : List LedgerEntry) (uid : Int) (rid : String)
    (wr : WithdrawReq) (balanceReadFails : Bool) :
    List LedgerEntry × Int × WCallback :=
  let b := if balanceReadFails then 0 else getbalance db uid
  let wc : WCallback := ⟨wr.bookId, uid, wr.withDrawSum, false⟩
  if wr.withDrawSum > b then
    (db, if balanceReadFails then 500 else 500, wc)
  else
    let r := updatebalance db uid rid (-wr.withDrawSum)
    if r.2 then
      (r.1, if balanceReadFails then 500 else 200, { wc with status := true })
    else
      (r.1, 500, wc)

end Account

namespace Events

/-- Row of the events table: (id, event_name, price, total_slots). -/
structure EventRec where
  id : Int
  name : String
  price : Int
  totalSlots : Int
deriving DecidableEq

/-- Row of the slots table: (event_id, book_id); its existence is the fact
that the booking holds one unit of the event's capacity. -/
structure SlotRec where
  eventId : Int
  bookId : Int
deriving DecidableEq

/-- State owned by the events service: the events and slots tables. -/
structure EventsDB where
  events : List EventRec
  slots : List SlotRec
deriving DecidableEq

/-- Body of an occupy/cancel request as decoded by the events service
(occupyRequestModel: book_id, event_id). -/
structure OccupyReq where
  bookId : Int
  eventId : Int
deriving DecidableEq

/-- Payload of the callback the events service posts to the book service
(occupiedResponseModel: book_id, user_id, price, status). -/
structure OccupyCallback where
  bookId : Int
  userId : Int
  price : Int
  status : Bool
deriving DecidableEq

/-- Embedding of getEvent (events service): getEventTpl selects the row with
the requested id. -/
def getEvent (db : EventsDB) (id : Int) : Option EventRec :=
  db.events.find? (fun e => decide (e.id = id))

/-- Embedding of getTotalSlots (events service): total_slots of the event, or
0 when the lookup fails. -/
def getTotalSlots (db : EventsDB) (id : Int) : Int :=
  match getEvent db id with
  | none => 0
  | some e => e.totalSlots

/-- Embedding of getOccupiedSlots (events service): occupiedSlotsTpl is
`SELECT COUNT(1) FROM slots WHERE event_id=$1`. -/
def getOccupiedSlots (db : EventsDB) (id : Int) : Int :=
  (db.slots.countP (fun s => decide (s.eventId = id)) : Nat)

/-- Embedding of the occupy handler (events service).  Looks up the event
(failure: HTTP 500 and a failure callback), then inserts a slot row iff
total > occupied; either way a callback carrying the event's price and the
success flag is sent.  Result: new state, HTTP status, callback payload. -/
def occupy (db : EventsDB) (uid : Int) (o : OccupyReq) :
    EventsDB × Int × OccupyCallback :=
  let ro : OccupyCallback := ⟨o.bookId, uid, 0, false⟩
  match getEvent db o.eventId with
  | none => (db, 500, ro)
  | some e =>
    let ro := { ro with price := e.price }
    let total := getTotalSlots db o.eventId
    let occupied := getOccupiedSlots db o.eventId
    if total > occupied then
      ({ db with slots := db.slots ++ [⟨o.eventId, o.bookId⟩] }, 200,
        { ro with status := true })
    else
      (db, 200, ro)

/-- Embedding of the cancelSlot handler (events service): cancelSlotTpl is
`DELETE FROM slots WHERE book_id = $1`, executed with the request's book_id;
the handler writes no status on success, which Go reports as HTTP 200. -/
def cancelSlot (db : EventsDB) (o : OccupyReq) : EventsDB × Int :=
  ({ db with slots := db.slots.filter (fun s => !decide (s.bookId = o.bookId)) }, 200)

end Events

namespace Orders

/-- Status constants of the book service (orders/app/main.go, iota block). -/
def statusCreated : Int := 0

/-- Status: the orchestrator decided to request a slot. -/
def statusNeedToOccupy : Int := 1

/-- Status: the reservation callback confirmed the slot. -/
def statusOccupied : Int := 2

/-- Status: the orchestrator decided to withdraw funds. -/
def statusNeedToPay : Int := 3

/-- Status: the payment callback confirmed the withdrawal. -/
def StatusPaid : Int := 4

/-- Status constant declared in the iota block and never assigned. -/
def StatusNeetToNotify : Int := 5

/-- Status constant declared in the iota block and never assigned. -/
def statusCompleted : Int := 6

/-- Status: terminal failure (`statusCancelled = -1`). -/
def statusCancelled : Int := -1

/-- Row of the book table (bookModel): id, user_id, event_id, price, status. -/
structure Book where
  id : Int
  userId : Int
  eventId : Int
  price : Int
  status : Int
deriving DecidableEq

/-- Endpoint constant occupySlotEndpoint of the book service. -/
def occupySlotEndpoint : String := "http://events.saga.svc.cluster.local:9000/events/occupy"

/-- Endpoint constant cancelSlotEndpoint of the book service; declared in the
const block and referenced nowhere else in the source. -/
def cancelSlotEndpoint : String := "http://events.saga.svc.cluster.local:9000/events/cancel"

/-- Endpoint constant paymentSlotEndpoint of the book service. -/
def paymentSlotEndpoint : String := "http://account.saga.svc.cluster.local:9000/account/withdrawal"

/-- Template constant occupySlotTpl of the book service. -/
def occupySlotTpl : String := "\x7b\"book_id\":%d,\"event_id\":%d\x7d"

/-- Template constant payTpl of the book service; it contains exactly two %d
verbs. -/
def payTpl : String := "\x7b\"book_id\":%d,\"withdrawal_sum\":%d\x7d"

/-- Verb substitution step of Go's fmt.Sprintf restricted to %d verbs and int
arguments: each %d consumes the next argument; a %d with no argument left
renders as %!d(MISSING); other characters are copied.  Returns the formatted
text and the unconsumed arguments. -/
def substD : List Char → List Int → String × List Int
  | [], args => ("", args)
  | '%' :: 'd' :: cs, a :: args =>
    let r := substD cs args
    (toString a ++ r.1, r.2)
  | '%' :: 'd' :: cs, [] =>
    let r := substD cs ([] : List Int)
    ("%!d(MISSING)" ++ r.1, r.2)
  | c :: cs, args =>
    let r := substD cs args
    (String.singleton c ++ r.1, r.2)

/-- Trailer Go's fmt appends when arguments remain after all verbs are
consumed: %!(EXTRA int=v, int=v, ...). -/
def extrasD (args : List Int) : String :=
  match args with
  | [] => ""
  | _ => "%!(EXTRA " ++ String.intercalate ", " (args.map (fun a => "int=" ++ toString a)) ++ ")"

/-- Embedding of fmt.Sprintf for templates whose verbs are all %d and whose
arguments are all ints, as used by the book service's request builders. -/
def sprintfD (tpl : String) (args : List Int) : String :=
  let r := substD tpl.toList args
  r.1 ++ extrasD r.2

/-- Request body built by payForBook (orders/app/main.go):
fmt.Sprintf(payTpl, b.ID, b.UserID, b.Price) — three arguments against the two
%d verbs of payTpl. -/
def payForBookBody (b : Book) : String :=
  sprintfD payTpl [b.id, b.userId, b.price]

/-- Request issued by payForBook: PUT to paymentSlotEndpoint with the body
above and the X-User-Id header set to the booking's user. -/
def payForBookRequest (b : Book) : String × String × Int :=
  (paymentSlotEndpoint, payForBookBody b, b.userId)

/-- Request issued by the book service's cancelSlot (orders/app/main.go): the
body is built from occupySlotTpl with (b.ID, b.EventID) and POSTed to
occupySlotEndpoint. -/
def cancelSlotRequest (b : Book) : String × String :=
  (occupySlotEndpoint, sprintfD occupySlotTpl [b.id, b.eventId])

/-- Case statusNeedToOccupy of actionBookStatus: call occupySlot; when the
call fails, cancelBook sets the status to statusCancelled, otherwise the
status is left unchanged (progress is driven by the callback). -/
def actionNeedToOccupy (occupyOk : Bool) : Int :=
  if occupyOk then statusNeedToOccupy else statusCancelled

/-- Case statusNeedToPay of actionBookStatus: call payForBook; when the call
fails, cancelBook sets the status to statusCancelled (and cancelSlot issues
its request), otherwise the status is left unchanged. -/
def actionNeedToPay (payOk : Bool) : Int :=
  if payOk then statusNeedToPay else statusCancelled

/-- Embedding of actionBookStatus (orders/app/main.go) as its effect on the
booking's status.  occupyOk and payOk are the transport outcomes of the
occupySlot and payForBook calls.  The Go cases statusCreated and
statusOccupied first write the next status and then recurse; the recursion
lands in the statusNeedToOccupy resp. statusNeedToPay case, inlined here as
the corresponding helper.  The statusCancelled case does nothing; StatusPaid
and the default case only log. -/
def actionBookStatus (occupyOk payOk : Bool) (s : Int) : Int :=
  if s = statusCreated then actionNeedToOccupy occupyOk
  else if s = statusCancelled then s
  else if s = statusNeedToOccupy then actionNeedToOccupy occupyOk
  else if s = statusOccupied then actionNeedToPay payOk
  else if s = statusNeedToPay then actionNeedToPay payOk
  else s

/-- Embedding of the callbackEvents handler (orders/app/main.go) on the booking
row.  On success it unconditionally sets status statusOccupied, sets the price
from the payload, and invokes actionBookStatus (which from statusOccupied only
performs the payment call, so the occupy flag is irrelevant and passed as
true); on failure cancelBook unconditionally sets statusCancelled. -/
def callbackEvents (payOk : Bool) (success : Bool) (price : Int) (b : Book) : Book :=
  if success then
    let b1 : Book := { b with status := statusOccupied }
    let b2 : Book := { b1 with price := price }
    { b2 with status := actionBookStatus true payOk b2.status }
  else
    { b with status := statusCancelled }

/-- Embedding of the callbackPayment handler (orders/app/main.go) on the
booking row.  On success it unconditionally sets status StatusPaid and invokes
actionBookStatus (which at StatusPaid makes no external call, so both flags
are irrelevant and passed as true); on failure cancelBook unconditionally sets
statusCancelled. -/
def callbackPayment (success : Bool) (b : Book) : Book :=
  if success then
    let b1 : Book := { b with status := StatusPaid }
    { b1 with status := actionBookStatus true true b1.status }
  else
    { b with status := statusCancelled }

/-- Compensation performed by the statusNeedToPay case of actionBookStatus
when payForBook fails: cancelBook sets the booking's status to
statusCancelled, and cancelSlot posts the occupySlotTpl payload
(b.ID, b.EventID) to occupySlotEndpoint — the events service routes that URL
to its occupy handler, so the slot-side effect is an occupy attempt. -/
def payFailureCompensation (b : Book) (edb : Events.EventsDB) :
    Book × Events.EventsDB :=
  ({ b with status := statusCancelled },
    (Events.occupy edb b.userId ⟨b.id, b.eventId⟩).1)

end Orders

namespace Account

/-- Test of one list being a leading segment of another, character by
character. -/
def startsWithL : List Char → List Char → Bool
  | [], _ => true
  | _ :: _, [] => false
  | p :: ps, c :: cs => p == c && startsWithL ps cs

/-- Suffix of a character list following the first occurrence of the given
pattern, when there is one. -/
def afterPat (pat : List Char) : List Char → Option (List Char)
  | [] => none
  | c :: cs =>
    if startsWithL pat (c :: cs) then some ((c :: cs).drop pat.length)
    else afterPat pat cs

/-- Numeric value of a run of decimal digits. -/
def digitsVal (cs : List Char) : Nat :=
  cs.foldl (fun acc c => acc * 10 + (c.toNat - '0'.toNat)) 0

/-- Leading decimal number of a character list, when it starts with one. -/
def readNatFrom (cs : List Char) : Option Nat :=
  let ds := cs.takeWhile (fun c => c.isDigit)
  if ds.isEmpty then none else some (digitsVal ds)

/-- Value the withdrawal handler's json.NewDecoder(...).Decode reads into
WithDrawSum from a request body: the number following the key
"withdrawal_sum" in the first JSON object (the Go decoder reads the first
JSON value and ignores trailing bytes; adequate for the non-negative
machine-built bodies at hand). -/
def decodeWithdrawalSum (s : String) : Option Nat :=
  match afterPat ("\"withdrawal_sum\":".toList) s.toList with
  | none => none
  | some cs => readNatFrom cs

end Account

namespace Account

/-- Updating via updateBalanceTpl leaves no row that still satisfies its own
WHERE clause: every matching pending row is committed. -/
lemma matchesPending_applyEntry (uid : Int) (rid : String) (d : Int) (e : LedgerEntry) :
    matchesPending uid rid (applyEntry uid rid d e) = false := by
  unfold applyEntry matchesPending
  by_cases h : e.userId = uid ∧ e.requestId = rid ∧ e.status = EntryStatus.pending
  · simp [h]
  · simp only [matchesPending, decide_eq_true_eq, h, if_false]
    simp [h]

/-- After one updatebalance pass, the pending-match count for the pair is 0. -/
lemma countP_pending_after_update (db : List LedgerEntry) (uid : Int) (rid : String) (d : Int) :
    (db.map (applyEntry uid rid d)).countP (matchesPending uid rid) = 0 := by
  rw [List.countP_eq_zero]
  intro a ha
  rcases List.mem_map.mp ha with ⟨e, _, rfl⟩
  simp [matchesPending_applyEntry]

/-- With no matching pending row, the updateBalanceTpl map is the identity. -/
lemma map_applyEntry_of_no_pending (db : List LedgerEntry) (uid : Int) (rid : String) (d : Int)
    (h : db.countP (matchesPending uid rid) = 0) :
    db.map (applyEntry uid rid d) = db := by
  rw [List.countP_eq_zero] at h
  induction db with
  | nil => rfl
  | cons e t ih =>
    have he : ¬ matchesPending uid rid e = true := h e (List.mem_cons_self e t)
    simp only [List.map_cons]
    rw [ih (fun a ha => h a (List.mem_cons_of_mem e ha))]
    unfold applyEntry
    simp [he]

/-- Committed-with-delta-d matches after one updatebalance pass: every pending
match turned into one, every prior committed match stayed one. -/
lemma countP_committed_after_update (db : List LedgerEntry) (uid : Int) (rid : String) (d : Int) :
    (db.map (applyEntry uid rid d)).countP (matchesCommitted uid rid d) =
      db.countP (matchesPending uid rid) + db.countP (matchesCommitted uid rid d) := by
  induction db with
  | nil => rfl
  | cons e t ih =>
    simp only [List.map_cons, List.countP_cons, ih]
    by_cases h : matchesPending uid rid e
    · have h1 : matchesCommitted uid rid d (applyEntry uid rid d e) = true := by
        simp [matchesPending] at h
        simp [applyEntry, matchesPending, matchesCommitted, h]
      have h2 : matchesCommitted uid rid d e = false := by
        simp [matchesPending] at h
        simp [matchesCommitted, h]
      simp [h1, h2, h]
      omega
    · have h0 : applyEntry uid rid d e = e := by
        unfold applyEntry
        simp [h]
      have h1 : ¬ matchesPending uid rid e = true := h
      simp [h0, h1]
      omega

end Account

end Saga

/-- Claim C3: applying the ledger's commit operation (updatebalance, the body
of apply) twice with the same (user, token) pair, starting from a table that
holds exactly one pending row for the pair and no committed row for it with
delta d, succeeds once and yields exactly one committed entry with delta d;
the second call finds no pending row, changes nothing, and reports the
"balance did not change" error (NoMatchingReservation). -/
theorem saga_c3_apply_twice_single_commit
    (db : List Saga.Account.LedgerEntry) (uid : Int) (rid : String) (d : Int)
    (hpend : db.countP (Saga.Account.matchesPending uid rid) = 1)
    (hcomm : db.countP (Saga.Account.matchesCommitted uid rid d) = 0) :
    (Saga.Account.updatebalance db uid rid d).2 = true
    ∧ (Saga.Account.updatebalance db uid rid d).1.countP
        (Saga.Account.matchesCommitted uid rid d) = 1
    ∧ (Saga.Account.updatebalance
        (Saga.Account.updatebalance db uid rid d).1 uid rid d).2 = false
    ∧ (Saga.Account.updatebalance
        (Saga.Account.updatebalance db uid rid d).1 uid rid d).1 =
      (Saga.Account.updatebalance db uid rid d).1 := by
  have hafter := Saga.Account.countP_pending_after_update db uid rid d
  refine ⟨?_, ?_, ?_, ?_⟩
  · simp [Saga.Account.updatebalance, hpend]
  · rw [show (Saga.Account.updatebalance db uid rid d).1 =
        db.map (Saga.Account.applyEntry uid rid d) from rfl]
    rw [Saga.Account.countP_committed_after_update, hpend, hcomm]
  · simp [Saga.Account.updatebalance, hafter]
  · exact Saga.Account.map_applyEntry_of_no_pending
      (db.map (Saga.Account.applyEntry uid rid d)) uid rid d hafter

/-- Witness for C3 at a concrete table: user 7 reserved token "tok" (one
pending row, delta 0), then applies delta 50 twice. -/
theorem saga_c3_apply_twice_single_commit_witness :
    (Saga.Account.updatebalance [⟨7, "tok", 0, Saga.Account.EntryStatus.pending⟩] 7 "tok" 50).2
      = true
    ∧ (Saga.Account.updatebalance [⟨7, "tok", 0, Saga.Account.EntryStatus.pending⟩] 7 "tok" 50).1.countP
        (Saga.Account.matchesCommitted 7 "tok" 50) = 1
    ∧ (Saga.Account.updatebalance
        (Saga.Account.updatebalance [⟨7, "tok", 0, Saga.Account.EntryStatus.pending⟩] 7 "tok" 50).1
        7 "tok" 50).2 = false
    ∧ (Saga.Account.updatebalance
        (Saga.Account.updatebalance [⟨7, "tok", 0, Saga.Account.EntryStatus.pending⟩] 7 "tok" 50).1
        7 "tok" 50).1 =
      (Saga.Account.updatebalance [⟨7, "tok", 0, Saga.Account.EntryStatus.pending⟩] 7 "tok" 50).1 :=
  saga_c3_apply_twice_single_commit
    [⟨7, "tok", 0, Saga.Account.EntryStatus.pending⟩] 7 "tok" 50 (by decide) (by decide)

/-- Claim C7: without storage failure, a withdrawal whose amount strictly
exceeds getBalance(u) answers the failure callback (InsufficientFunds) with
HTTP 500 and leaves the table, hence the balance, unchanged; an amount at most
the balance proceeds to the conditional commit (updatebalance with the negated
amount). -/
theorem saga_c7_withdrawal_balance_guard
    (db : List Saga.Account.LedgerEntry) (uid : Int) (rid : String)
    (wr : Saga.Account.WithdrawReq) :
    (wr.withDrawSum > Saga.Account.getbalance db uid →
      (Saga.Account.withdrawal db uid rid wr false).1 = db
      ∧ (Saga.Account.withdrawal db uid rid wr false).2.1 = 500
      ∧ (Saga.Account.withdrawal db uid rid wr false).2.2.status = false
      ∧ Saga.Account.getbalance (Saga.Account.withdrawal db uid rid wr false).1 uid
          = Saga.Account.getbalance db uid)
    ∧ (wr.withDrawSum ≤ Saga.Account.getbalance db uid →
      (Saga.Account.withdrawal db uid rid wr false).1 =
        (Saga.Account.updatebalance db uid rid (-wr.withDrawSum)).1) := by
  constructor
  · intro h
    simp [Saga.Account.withdrawal, h]
  · intro h
    have hnot : ¬ (wr.withDrawSum > Saga.Account.getbalance db uid) := not_lt.mpr h
    simp only [Saga.Account.withdrawal, Bool.false_eq_true, if_false, if_neg hnot]
    split <;> rfl

/-- Witness for C7: take the ledger [(7, "a", 50, committed)], so user 7 has
balance 50, and request a withdrawal of 100 with token "t". -/
theorem saga_c7_withdrawal_balance_guard_witness :
    (Saga.Account.withdrawal [⟨7, "a", 50, Saga.Account.EntryStatus.committed⟩] 7 "t" ⟨1, 100⟩ false).1
        = [⟨7, "a", 50, Saga.Account.EntryStatus.committed⟩]
    ∧ (Saga.Account.withdrawal [⟨7, "a", 50, Saga.Account.EntryStatus.committed⟩] 7 "t" ⟨1, 100⟩ false).2.1
        = 500
    ∧ (Saga.Account.withdrawal [⟨7, "a", 50, Saga.Account.EntryStatus.committed⟩] 7 "t" ⟨1, 100⟩ false).2.2.status
        = false
    ∧ Saga.Account.getbalance
        (Saga.Account.withdrawal [⟨7, "a", 50, Saga.Account.EntryStatus.committed⟩] 7 "t" ⟨1, 100⟩ false).1 7
        = Saga.Account.getbalance [⟨7, "a", 50, Saga.Account.EntryStatus.committed⟩] 7 :=
  (saga_c7_withdrawal_balance_guard
    [⟨7, "a", 50, Saga.Account.EntryStatus.committed⟩] 7 "t" ⟨1, 100⟩).1 (by decide)

/-- Claim C10: when reading the balance fails with a storage error, the
withdrawal handler does not abort — it continues with the zero value 0, so any
strictly positive amount takes the insufficient-funds path: HTTP 500, a
failure callback, and no ledger entry modified. -/
theorem saga_c10_balance_read_failure_continues_with_zero
    (db : List Saga.Account.LedgerEntry) (uid : Int) (rid : String)
    (wr : Saga.Account.WithdrawReq) (h : 0 < wr.withDrawSum) :
    (Saga.Account.withdrawal db uid rid wr true).1 = db
    ∧ (Saga.Account.withdrawal db uid rid wr true).2.1 = 500
    ∧ (Saga.Account.withdrawal db uid rid wr true).2.2.status = false
    ∧ Saga.Account.getbalance (Saga.Account.withdrawal db uid rid wr true).1 uid
        = Saga.Account.getbalance db uid := by
  simp [Saga.Account.withdrawal, h]

/-- Witness for C10: user 7 in fact has committed balance 50, the read of it
fails, and the amount 5 (affordable, but checked against 0) is rejected. -/
theorem saga_c10_balance_read_failure_continues_with_zero_witness :
    (Saga.Account.withdrawal [⟨7, "a", 50, Saga.Account.EntryStatus.committed⟩] 7 "t" ⟨1, 5⟩ true).1
        = [⟨7, "a", 50, Saga.Account.EntryStatus.committed⟩]
    ∧ (Saga.Account.withdrawal [⟨7, "a", 50, Saga.Account.EntryStatus.committed⟩] 7 "t" ⟨1, 5⟩ true).2.1
        = 500
    ∧ (Saga.Account.withdrawal [⟨7, "a", 50, Saga.Account.EntryStatus.committed⟩] 7 "t" ⟨1, 5⟩ true).2.2.status
        = false
    ∧ Saga.Account.getbalance
        (Saga.Account.withdrawal [⟨7, "a", 50, Saga.Account.EntryStatus.committed⟩] 7 "t" ⟨1, 5⟩ true).1 7
        = Saga.Account.getbalance [⟨7, "a", 50, Saga.Account.EntryStatus.committed⟩] 7 :=
  saga_c10_balance_read_failure_continues_with_zero
    [⟨7, "a", 50, Saga.Account.EntryStatus.committed⟩] 7 "t" ⟨1, 5⟩ (by decide)

/-- Claim C8, counterexample: reserving the same token twice is NOT error-free
for the caller — with the empty table, the first newReq for (7, "tok") answers
HTTP 200 but the second answers HTTP 500 (the insert of prepareOperationTpl is
rejected by the pair's uniqueness), so the caller does observe an error. -/
theorem saga_c8_second_reserve_answers_500 :
    (Saga.Account.newReq [] 7 "tok").2 = 200
    ∧ (Saga.Account.newReq ((Saga.Account.newReq [] 7 "tok").1) 7 "tok").2 = 500
    ∧ (500 : Int) ≠ 200 := by decide

/-- Claim C8 as amended: for a pair (user, token) with no existing row, the
first newReq succeeds and leaves exactly one pending entry with delta 0; the
second newReq with the same token leaves the table unchanged (the insert is
rejected, so the token is write-once in effect) but answers HTTP 500, so the
caller does observe an error. -/
theorem saga_c8_reserve_token_write_once
    (db : List Saga.Account.LedgerEntry) (uid : Int) (rid : String)
    (h : db.countP (Saga.Account.matchesPair uid rid) = 0) :
    (Saga.Account.newReq db uid rid).2 = 200
    ∧ (Saga.Account.newReq db uid rid).1.countP (Saga.Account.matchesPendingZero uid rid) = 1
    ∧ (Saga.Account.newReq ((Saga.Account.newReq db uid rid).1) uid rid).1 =
        (Saga.Account.newReq db uid rid).1
    ∧ (Saga.Account.newReq ((Saga.Account.newReq db uid rid).1) uid rid).2 = 500 := by
  rw [List.countP_eq_zero] at h
  have hany : db.any (Saga.Account.matchesPair uid rid) = false := by
    rw [Bool.eq_false_iff]
    intro hc
    rw [List.any_eq_true] at hc
    obtain ⟨x, hx, hpx⟩ := hc
    exact h x hx hpx
  have hz : db.countP (Saga.Account.matchesPendingZero uid rid) = 0 := by
    rw [List.countP_eq_zero]
    intro a ha hpa
    refine h a ha ?_
    simp only [Saga.Account.matchesPendingZero, decide_eq_true_eq] at hpa
    simp [Saga.Account.matchesPair, hpa.1, hpa.2.1]
  have hnew : Saga.Account.matchesPair uid rid ⟨uid, rid, 0, Saga.Account.EntryStatus.pending⟩
      = true := by simp [Saga.Account.matchesPair]
  have hnewz : Saga.Account.matchesPendingZero uid rid
      ⟨uid, rid, 0, Saga.Account.EntryStatus.pending⟩ = true := by
    simp [Saga.Account.matchesPendingZero]
  refine ⟨?_, ?_, ?_, ?_⟩
  · simp [Saga.Account.newReq, Saga.Account.insertPrepared, hany]
  · simp [Saga.Account.newReq, Saga.Account.insertPrepared, hany, List.countP_append,
      hz, hnewz]
  · simp [Saga.Account.newReq, Saga.Account.insertPrepared, hany, List.any_append, hnew]
  · simp [Saga.Account.newReq, Saga.Account.insertPrepared, hany, List.any_append, hnew]

/-- Witness for C8's amended claim at the empty table with pair (7, "tok"). -/
theorem saga_c8_reserve_token_write_once_witness :
    (Saga.Account.newReq [] 7 "tok").2 = 200
    ∧ (Saga.Account.newReq [] 7 "tok").1.countP (Saga.Account.matchesPendingZero 7 "tok") = 1
    ∧ (Saga.Account.newReq ((Saga.Account.newReq [] 7 "tok").1) 7 "tok").1 =
        (Saga.Account.newReq [] 7 "tok").1
    ∧ (Saga.Account.newReq ((Saga.Account.newReq [] 7 "tok").1) 7 "tok").2 = 500 :=
  saga_c8_reserve_token_write_once [] 7 "tok" (by decide)

/-- Deleting or appending slot rows does not change what getEvent and
getTotalSlots see: they read only the events table. -/
lemma saga_events_total_slots_update (db : Saga.Events.EventsDB)
    (s : List Saga.Events.SlotRec) (eid : Int) :
    Saga.Events.getTotalSlots { db with slots := s } eid =
      Saga.Events.getTotalSlots db eid := rfl

/-- Claim C6: the occupy handler preserves the per-event capacity invariant
(occupancy count never exceeds total_slots), creates a record and reports
success only when the count is strictly below capacity, and on a failure
report leaves the state unchanged. -/
theorem saga_c6_occupy_capacity_invariant (db : Saga.Events.EventsDB) (uid : Int)
    (o : Saga.Events.OccupyReq)
    (hinv : ∀ eid, Saga.Events.getOccupiedSlots db eid ≤ Saga.Events.getTotalSlots db eid) :
    (∀ eid, Saga.Events.getOccupiedSlots (Saga.Events.occupy db uid o).1 eid ≤
        Saga.Events.getTotalSlots (Saga.Events.occupy db uid o).1 eid)
    ∧ ((Saga.Events.occupy db uid o).2.2.status = true →
        Saga.Events.getOccupiedSlots db o.eventId < Saga.Events.getTotalSlots db o.eventId
        ∧ (Saga.Events.occupy db uid o).1.slots = db.slots ++ [⟨o.eventId, o.bookId⟩])
    ∧ ((Saga.Events.occupy db uid o).2.2.status = false →
        (Saga.Events.occupy db uid o).1 = db) := by
  rcases hev : Saga.Events.getEvent db o.eventId with _ | e
  · refine ⟨?_, ?_, ?_⟩
    · simp only [Saga.Events.occupy, hev]
      exact hinv
    · simp [Saga.Events.occupy, hev]
    · simp [Saga.Events.occupy, hev]
  · by_cases hlt : Saga.Events.getTotalSlots db o.eventId > Saga.Events.getOccupiedSlots db o.eventId
    · refine ⟨?_, ?_, ?_⟩
      · intro eid
        simp only [Saga.Events.occupy, hev, if_pos hlt]
        rw [saga_events_total_slots_update]
        by_cases heid : o.eventId = eid
        · subst heid
          have hcount : Saga.Events.getOccupiedSlots
              { db with slots := db.slots ++ [⟨o.eventId, o.bookId⟩] } o.eventId =
              Saga.Events.getOccupiedSlots db o.eventId + 1 := by
            simp [Saga.Events.getOccupiedSlots, List.countP_append]
          rw [hcount]
          omega
        · have hcount : Saga.Events.getOccupiedSlots
              { db with slots := db.slots ++ [⟨o.eventId, o.bookId⟩] } eid =
              Saga.Events.getOccupiedSlots db eid := by
            simp [Saga.Events.getOccupiedSlots, List.countP_append, heid]
          rw [hcount]
          exact hinv eid
      · intro _
        exact ⟨hlt, by simp [Saga.Events.occupy, hev, if_pos hlt]⟩
      · simp [Saga.Events.occupy, hev, if_pos hlt]
    · refine ⟨?_, ?_, ?_⟩
      · simp only [Saga.Events.occupy, hev, if_neg hlt]
        exact hinv
      · simp [Saga.Events.occupy, hev, if_neg hlt]
      · simp [Saga.Events.occupy, hev, if_neg hlt]

/-- Witness for C6: event 10 has capacity 1 and one free slot; booking 1
occupies it. -/
theorem saga_c6_occupy_capacity_invariant_witness :
    (∀ eid, Saga.Events.getOccupiedSlots
        (Saga.Events.occupy ⟨[⟨10, "e", 20, 1⟩], []⟩ 7 ⟨1, 10⟩).1 eid ≤
        Saga.Events.getTotalSlots (Saga.Events.occupy ⟨[⟨10, "e", 20, 1⟩], []⟩ 7 ⟨1, 10⟩).1 eid)
    ∧ ((Saga.Events.occupy ⟨[⟨10, "e", 20, 1⟩], []⟩ 7 ⟨1, 10⟩).2.2.status = true →
        Saga.Events.getOccupiedSlots ⟨[⟨10, "e", 20, 1⟩], []⟩ 10 <
          Saga.Events.getTotalSlots ⟨[⟨10, "e", 20, 1⟩], []⟩ 10
        ∧ (Saga.Events.occupy ⟨[⟨10, "e", 20, 1⟩], []⟩ 7 ⟨1, 10⟩).1.slots =
            [] ++ [⟨10, 1⟩])
    ∧ ((Saga.Events.occupy ⟨[⟨10, "e", 20, 1⟩], []⟩ 7 ⟨1, 10⟩).2.2.status = false →
        (Saga.Events.occupy ⟨[⟨10, "e", 20, 1⟩], []⟩ 7 ⟨1, 10⟩).1 = ⟨[⟨10, "e", 20, 1⟩], []⟩) :=
  saga_c6_occupy_capacity_invariant ⟨[⟨10, "e", 20, 1⟩], []⟩ 7 ⟨1, 10⟩
    (by
      intro eid
      have h0 : Saga.Events.getOccupiedSlots ⟨[⟨10, "e", 20, 1⟩], []⟩ eid = 0 := by
        simp [Saga.Events.getOccupiedSlots]
      rw [h0]
      by_cases h : (10 : Int) = eid
      · subst h
        norm_num [Saga.Events.getTotalSlots, Saga.Events.getEvent]
      · simp [Saga.Events.getTotalSlots, Saga.Events.getEvent, h])

/-- Claim C9: deletion of occupancy records is keyed on the booking id alone —
the event id in the request payload is ignored, every slot row carrying the
booking id (for any event) is removed, and cancelling with no matching row
answers success and changes nothing. -/
theorem saga_c9_cancel_keyed_on_book_id (db : Saga.Events.EventsDB) (bid e1 e2 : Int) :
    Saga.Events.cancelSlot db ⟨bid, e1⟩ = Saga.Events.cancelSlot db ⟨bid, e2⟩
    ∧ (∀ s, s ∈ (Saga.Events.cancelSlot db ⟨bid, e1⟩).1.slots ↔
        s ∈ db.slots ∧ ¬ s.bookId = bid)
    ∧ (Saga.Events.cancelSlot db ⟨bid, e1⟩).2 = 200
    ∧ ((∀ s ∈ db.slots, ¬ s.bookId = bid) →
        (Saga.Events.cancelSlot db ⟨bid, e1⟩).1 = db) := by
  refine ⟨rfl, ?_, rfl, ?_⟩
  · intro s
    simp [Saga.Events.cancelSlot, List.mem_filter]
  · intro h
    show ({ db with slots := db.slots.filter _ } : Saga.Events.EventsDB) = db
    have hfix : db.slots.filter (fun s => !decide (s.bookId = bid)) = db.slots := by
      rw [List.filter_eq_self]
      intro a ha
      simp [h a ha]
    rw [hfix]

/-- Witness for C9: a state holding slots for bookings 1 and 2 on two events,
cancelled with booking id 3 (no matching row). -/
theorem saga_c9_cancel_keyed_on_book_id_witness :
    Saga.Events.cancelSlot ⟨[], [⟨10, 1⟩, ⟨11, 2⟩]⟩ ⟨3, 10⟩ =
        Saga.Events.cancelSlot ⟨[], [⟨10, 1⟩, ⟨11, 2⟩]⟩ ⟨3, 99⟩
    ∧ ((⟨10, 1⟩ : Saga.Events.SlotRec) ∈
        (Saga.Events.cancelSlot ⟨[], [⟨10, 1⟩, ⟨11, 2⟩]⟩ ⟨3, 10⟩).1.slots ↔
        (⟨10, 1⟩ : Saga.Events.SlotRec) ∈
          ([⟨10, 1⟩, ⟨11, 2⟩] : List Saga.Events.SlotRec) ∧ ¬ (1 : Int) = 3)
    ∧ (Saga.Events.cancelSlot ⟨[], [⟨10, 1⟩, ⟨11, 2⟩]⟩ ⟨3, 10⟩).1 =
        ⟨[], [⟨10, 1⟩, ⟨11, 2⟩]⟩ :=
  ⟨(saga_c9_cancel_keyed_on_book_id ⟨[], [⟨10, 1⟩, ⟨11, 2⟩]⟩ 3 10 99).1,
   (saga_c9_cancel_keyed_on_book_id ⟨[], [⟨10, 1⟩, ⟨11, 2⟩]⟩ 3 10 99).2.1 ⟨10, 1⟩,
   (saga_c9_cancel_keyed_on_book_id ⟨[], [⟨10, 1⟩, ⟨11, 2⟩]⟩ 3 10 99).2.2.2 (by decide)⟩

/-- Claim C1 (code bug): with event 10 of capacity 1 and price 20, booking 1
(user 1) holding occupancy record (10, 1) and sitting at statusNeedToPay, a
payment failure triggers the compensation of the statusNeedToPay case:
cancelBook does set the booking's status to statusCancelled, but cancelSlot
posts the occupy payload to occupySlotEndpoint (the declared
cancelSlotEndpoint is never used), so the occupancy record (10, 1) is NOT
deleted — it is still present afterwards, the occupancy count of event 10
stays 1, and the failed booking is left holding the slot. -/
theorem saga_c1_compensation_leaves_slot_held :
    (Saga.Orders.payFailureCompensation ⟨1, 1, 10, 20, Saga.Orders.statusNeedToPay⟩
        ⟨[⟨10, "concert", 20, 1⟩], [⟨10, 1⟩]⟩).1.status = Saga.Orders.statusCancelled
    ∧ (⟨10, 1⟩ : Saga.Events.SlotRec) ∈
        (Saga.Orders.payFailureCompensation ⟨1, 1, 10, 20, Saga.Orders.statusNeedToPay⟩
          ⟨[⟨10, "concert", 20, 1⟩], [⟨10, 1⟩]⟩).2.slots
    ∧ Saga.Events.getOccupiedSlots
        (Saga.Orders.payFailureCompensation ⟨1, 1, 10, 20, Saga.Orders.statusNeedToPay⟩
          ⟨[⟨10, "concert", 20, 1⟩], [⟨10, 1⟩]⟩).2 10 = 1
    ∧ (Saga.Orders.cancelSlotRequest ⟨1, 1, 10, 20, Saga.Orders.statusNeedToPay⟩).1 =
        Saga.Orders.occupySlotEndpoint
    ∧ Saga.Orders.occupySlotEndpoint ≠ Saga.Orders.cancelSlotEndpoint := by
  refine ⟨rfl, ?_, rfl, rfl, ?_⟩
  · decide
  · decide

/-- Claim C2, counterexample: a booking already Cancelled that receives a
late reservation-success callback is moved to statusNeedToPay — the callback
handler writes the status unconditionally, so Cancelled is not absorbing
under callback deliveries. -/
theorem saga_c2_callback_changes_cancelled_booking :
    (Saga.Orders.callbackEvents true true 20
        ⟨1, 1, 10, 0, Saga.Orders.statusCancelled⟩).status = Saga.Orders.statusNeedToPay
    ∧ Saga.Orders.statusNeedToPay ≠ Saga.Orders.statusCancelled := by decide

/-- Claim C2 as amended: the step function itself (actionBookStatus) is
monotone — it never changes a Cancelled booking's status, and otherwise either
keeps the status, moves it forward, or jumps to Cancelled; the callback
handlers, however, write the status unconditionally, so a late callback can
change even a Cancelled booking (see the counterexample). -/
theorem saga_c2_step_function_monotone (occupyOk payOk : Bool) (s : Int) :
    (s = Saga.Orders.statusCancelled →
      Saga.Orders.actionBookStatus occupyOk payOk s = s)
    ∧ (Saga.Orders.actionBookStatus occupyOk payOk s = Saga.Orders.statusCancelled
      ∨ s ≤ Saga.Orders.actionBookStatus occupyOk payOk s) := by
  constructor
  · intro hs
    subst hs
    cases occupyOk <;> cases payOk <;> decide
  · unfold Saga.Orders.actionBookStatus Saga.Orders.actionNeedToOccupy
      Saga.Orders.actionNeedToPay
    cases occupyOk <;> cases payOk <;>
      split_ifs <;>
        simp_all [Saga.Orders.statusCreated, Saga.Orders.statusCancelled,
          Saga.Orders.statusNeedToOccupy, Saga.Orders.statusOccupied,
          Saga.Orders.statusNeedToPay]

/-- Witness for C2's amended claim: a Cancelled booking is untouched by a step
invocation, and a step invocation from statusOccupied with a successful
payment call moves forward. -/
theorem saga_c2_step_function_monotone_witness :
    Saga.Orders.actionBookStatus true true Saga.Orders.statusCancelled =
        Saga.Orders.statusCancelled
    ∧ (Saga.Orders.actionBookStatus true true Saga.Orders.statusOccupied =
          Saga.Orders.statusCancelled
      ∨ Saga.Orders.statusOccupied ≤
          Saga.Orders.actionBookStatus true true Saga.Orders.statusOccupied) :=
  ⟨(saga_c2_step_function_monotone true true Saga.Orders.statusCancelled).1 rfl,
   (saga_c2_step_function_monotone true true Saga.Orders.statusOccupied).2⟩

/-- Claim C4 (code bug): for the booking with id 1, user 2, price 20 at
statusNeedToPay, payForBook's body is built by fmt.Sprintf from payTpl (two
%d verbs) and THREE arguments (b.ID, b.UserID, b.Price), so the wire body is
"(book_id):1,(withdrawal_sum):2" followed by the %!(EXTRA int=20) trailer;
the account service decodes withdrawal_sum = 2 — the booking's USER ID — while
the booking's price is 20, so the requested amount is not the price.  (The
X-User-Id header does carry the booking's user, as the claim says.) -/
theorem saga_c4_withdrawal_amount_is_user_id :
    Saga.Orders.payForBookBody ⟨1, 2, 10, 20, Saga.Orders.statusNeedToPay⟩ =
        "\x7b\"book_id\":1,\"withdrawal_sum\":2\x7d%!(EXTRA int=20)"
    ∧ Saga.Account.decodeWithdrawalSum
        (Saga.Orders.payForBookBody ⟨1, 2, 10, 20, Saga.Orders.statusNeedToPay⟩) = some 2
    ∧ (2 : Int) ≠ 20
    ∧ (Saga.Orders.payForBookRequest ⟨1, 2, 10, 20, Saga.Orders.statusNeedToPay⟩).2.2 = 2 := by
  refine ⟨by decide, by decide, by decide, rfl⟩

/-- Claim C5 (code bug): a successful payment callback does set the booking's
status to StatusPaid, but nothing drives it on — the StatusPaid case of
actionBookStatus only logs ("need to notify here"), so the booking ends at
StatusPaid, never statusCompleted, and no completion notification is sent. -/
theorem saga_c5_payment_callback_stops_at_paid :
    (Saga.Orders.callbackPayment true ⟨1, 1, 10, 20, Saga.Orders.statusNeedToPay⟩).status =
        Saga.Orders.StatusPaid
    ∧ (Saga.Orders.callbackPayment true ⟨1, 1, 10, 20, Saga.Orders.statusNeedToPay⟩).status ≠
        Saga.Orders.statusCompleted
    ∧ Saga.Orders.actionBookStatus true true Saga.Orders.StatusPaid =
        Saga.Orders.StatusPaid := by decide
